import Mathlib

/-!
Verification of the asset-tracking status-evaluation and record-reconciliation
engine (`asset_tracking/core.py`, `asset_tracking/database/operations.py`,
`asset_tracking/database/schema.py`, `asset_tracking/config.py`).

The embedding is shallow: timestamps are integers (seconds, UTC), a
`timedelta(days=d)` is `d * 86400` seconds, the relational store is a pair of
lists of records, and each source function becomes a pure Lean function over
that state.  Functions are translated from the source, control path by control
path; deviations forced by totality are noted next to the definition they
concern.
-/

namespace AssetTracking

/-! ### Python string helpers

`pyUpper`/`pyLower` model Python's `str.upper()`/`str.lower()` (per-character
case mapping; host names and attribute names in this repository are ASCII).
They agree with Lean's `String.toUpper`/`String.toLower` (see
`pyUpper_eq_toUpper` below) but are written on `String.data` so that the
kernel can evaluate them on literals. -/

def pyUpper (s : String) : String := ⟨s.data.map Char.toUpper⟩

def pyLower (s : String) : String := ⟨s.data.map Char.toLower⟩

theorem pyUpper_eq_toUpper (s : String) : pyUpper s = s.toUpper := by
  rw [String.toUpper, String.map_eq]
  rfl

theorem char_toUpper_toUpper (c : Char) : Char.toUpper (Char.toUpper c) = Char.toUpper c := by
  by_cases h : c.toNat ≥ 97 ∧ c.toNat ≤ 122
  · have hv : Nat.isValidChar (c.toNat - 32) := Or.inl (by omega)
    have h1 : Char.toUpper c = Char.ofNat (c.toNat - 32) := by
      unfold Char.toUpper
      rw [if_pos h]
    have htn : (Char.ofNat (c.toNat - 32)).toNat = c.toNat - 32 := by
      unfold Char.ofNat
      rw [dif_pos hv]
      rfl
    have hcond : ¬((Char.ofNat (c.toNat - 32)).toNat ≥ 97 ∧ (Char.ofNat (c.toNat - 32)).toNat ≤ 122) := by
      rw [htn]; omega
    rw [h1]
    conv_lhs => unfold Char.toUpper
    rw [if_neg hcond]
  · have h1 : Char.toUpper c = c := by
      unfold Char.toUpper
      rw [if_neg h]
    rw [h1, h1]

theorem pyUpper_pyUpper (s : String) : pyUpper (pyUpper s) = pyUpper s := by
  simp only [pyUpper, List.map_map]
  congr 1
  apply List.map_congr_left
  intro c _
  exact char_toUpper_toUpper c

/-! ### Data model (`database/schema.py`) -/

/-- Asset status (`schema.Status`). -/
inductive Status where
  | compliant
  | non_compliant
  | unknown
  | rogue
deriving DecidableEq

/-- Attribute status (`schema.AttributeStatus`). -/
inductive AttributeStatus where
  | good
  | missing
deriving DecidableEq

/-- A row of the `assets` table (`schema.Asset`).  `last_observed` is nullable;
`insert_date` plays no role in the evaluated logic and is omitted. -/
structure Asset where
  id : Nat
  hostname : String
  status : Status
  last_observed : Option Int
deriving DecidableEq

/-- A row of the `asset_attributes` table (`schema.Attribute`). -/
structure Attribute where
  id : Nat
  asset_id : Nat
  name : String
  last_observed : Option Int
  detail : String
  status : AttributeStatus
deriving DecidableEq

/-! ### Configuration (`config.py`) -/

/-- The settings the core reads (`config.Settings`), with the source defaults.
Thresholds are day counts (`int` fields in the source). -/
structure Settings where
  max_attribute_absence : Int := 4
  max_asset_absence : Int := 6
  require_all_attributes : List String := []
  require_one_attribute : List String := []

/-- `datetime.timedelta(days=d)` measured in seconds. -/
def days (d : Int) : Int := d * 86400

/-! ### `core.time_since_observation` (core.py lines 32-38)

`now` is the current UTC time.  A null (falsy) `last_observed` yields
`timedelta(days=0)`; otherwise `now - item.last_observed_time`. -/

def time_since_observation (now : Int) (last_observed : Option Int) : Int :=
  match last_observed with
  | none => 0
  | some t => now - t

/-! ### `core.evaluate_age_of_all_attributes_and_update_status` (core.py 41-57) -/

/-- The per-attribute body of the staleness loop: mark `missing` when the
attribute has not been seen within `max_attribute_absence` days, flip a
`missing` attribute back to `good` otherwise. -/
def evaluate_attribute_age (now max_attribute_absence : Int) (attr : Attribute) : Attribute :=
  if time_since_observation now attr.last_observed > days max_attribute_absence then
    { attr with status := AttributeStatus.missing }
  else if attr.status = AttributeStatus.missing then
    { attr with status := AttributeStatus.good }
  else
    attr

/-- Whether the loop body issues an `update_attribute` status write for this
attribute (source lines 50-56: a write happens on the stale branch and on the
`missing`-back-to-`good` branch). -/
def attribute_age_write (now max_attribute_absence : Int) (attr : Attribute) : Bool :=
  if time_since_observation now attr.last_observed > days max_attribute_absence then
    true
  else
    attr.status = AttributeStatus.missing

def evaluate_age_of_all_attributes_and_update_status
    (now max_attribute_absence : Int) (attributes : List Attribute) : List Attribute :=
  attributes.map (evaluate_attribute_age now max_attribute_absence)

/-! ### `core.evaluate_asset_attributes_and_update_status` (core.py 60-132) -/

/-- The lower-cased names of the attributes whose stored status is `good`
(source line 101). -/
def good_attribute_names (attributes : List Attribute) : List String :=
  (attributes.filter (fun a => a.status = AttributeStatus.good)).map (fun a => pyLower a.name)

/-- The spec's compliance condition (§4.2 step 5): `require_all ⊆ good_names`
(vacuously true when `require_all` is empty) and
`require_one ∩ good_names ≠ ∅` (vacuously true when `require_one` is empty),
names compared case-insensitively. -/
def requirements_met (S : Settings) (attributes : List Attribute) : Bool :=
  (S.require_all_attributes.all (fun tool => (good_attribute_names attributes).contains (pyLower tool))) &&
  (S.require_one_attribute.isEmpty ||
    S.require_one_attribute.any (fun tool => (good_attribute_names attributes).contains (pyLower tool)))

/-- The classifier.  Takes the asset, its attribute rows, and the
`evaluate_attribute_status` flag; returns the updated asset row together with
the updated attribute rows (the source mutates them through the session).
Mirrors the source branch for branch. -/
def evaluate_asset_attributes_and_update_status
    (S : Settings) (now : Int) (asset : Asset) (attributes : List Attribute)
    (evaluate_attribute_status : Bool) : Asset × List Attribute :=
  -- check age of device and update to unknown, if not unknown or rogue
  let elapsed_time := time_since_observation now asset.last_observed
  if elapsed_time > days S.max_asset_absence then
    if asset.status ≠ Status.unknown ∧ asset.status ≠ Status.rogue then
      ({ asset with status := Status.unknown }, attributes)
    else
      (asset, attributes)
  else
    let attributes :=
      if evaluate_attribute_status then
        evaluate_age_of_all_attributes_and_update_status now S.max_attribute_absence attributes
      else attributes
    if S.require_all_attributes.isEmpty && S.require_one_attribute.isEmpty then
      ({ asset with status := Status.compliant }, attributes)
    else
      let attribute_names := good_attribute_names attributes
      let has_all := S.require_all_attributes.all (fun tool => attribute_names.contains (pyLower tool))
      let has_any := S.require_one_attribute.any (fun tool => attribute_names.contains (pyLower tool))
      -- compliant = True; two guarded downgrades as in the source
      let compliant1 : Bool := if !S.require_all_attributes.isEmpty && !has_all then false else true
      let compliant : Bool := if compliant1 && !S.require_one_attribute.isEmpty && !has_any then false else compliant1
      if compliant then
        ({ asset with status := Status.compliant }, attributes)
      else if asset.status = Status.rogue then
        -- leave the status as rogue
        (asset, attributes)
      else if asset.status ≠ Status.non_compliant then
        ({ asset with status := Status.non_compliant }, attributes)
      else
        (asset, attributes)

/-! ### Persistent store (`database/operations.py`)

The relational store: the `assets` and `asset_attributes` tables as lists of
rows (in insertion order, as a SQLite query without `ORDER BY` returns them),
plus the autoincrement counters. -/

structure Store where
  assets : List Asset
  attributes : List Attribute
  next_asset_id : Nat
  next_attribute_id : Nat
deriving DecidableEq

def emptyStore : Store := ⟨[], [], 0, 0⟩

/-- `operations.get_asset_by_name` (lines 94-96): case-insensitive lookup by
forcing uppercase; `.first()` takes the first matching row. -/
def get_asset_by_name (s : Store) (asset_name : String) : Option Asset :=
  s.assets.find? (fun a => pyUpper a.hostname = pyUpper asset_name)

/-- `operations.create_asset` (lines 43-55): insert with the upper-cased
hostname and status `unknown` (the only status the merge engine creates with,
which is also the parameter default).  The `hostname` column carries a UNIQUE
constraint; a duplicate raises `IntegrityError` and the function returns a
failure indicator (`none`). -/
def create_asset (s : Store) (hostname : String) (last_observed : Option Int) :
    Option (Store × Asset) :=
  if s.assets.any (fun a => a.hostname = pyUpper hostname) then
    none
  else
    let asset : Asset := ⟨s.next_asset_id, pyUpper hostname, Status.unknown, last_observed⟩
    some ({ s with assets := s.assets ++ [asset], next_asset_id := s.next_asset_id + 1 }, asset)

/-- Commit a mutated asset row back to the store (the session flush behind
`update_asset_status` / `update_asset_observation_time`). -/
def update_asset_in_store (s : Store) (a : Asset) : Store :=
  { s with assets := s.assets.map (fun x => if x.id = a.id then a else x) }

/-- `operations.update_asset_observation_time` (lines 68-75). -/
def update_asset_observation_time (s : Store) (a : Asset) (observed_time : Int) :
    Store × Asset :=
  let a' := { a with last_observed := some observed_time }
  (update_asset_in_store s a', a')

/-- `operations.get_attribute_by_name` (lines 149-156): filter by asset id and
attribute name, `.first()`. -/
def get_attribute_by_name (s : Store) (asset_id : Nat) (attribute_name : String) :
    Option Attribute :=
  s.attributes.find? (fun a => a.asset_id = asset_id && a.name = attribute_name)

/-- `operations.get_asset_attributes` (lines 163-167). -/
def get_asset_attributes (s : Store) (asset_id : Nat) : List Attribute :=
  s.attributes.filter (fun a => a.asset_id = asset_id)

/-- `operations.assign_attribute` (lines 123-146): create a new attribute row
with status `good` (the parameter default, the only value the core passes).
The caller always passes the id of a row present in the store, so the
`no asset found` failure arm is not reachable here. -/
def assign_attribute (s : Store) (asset_id : Nat) (attribute_name : String)
    (last_observed : Int) (detail : String) : Store × Attribute :=
  let attr : Attribute :=
    ⟨s.next_attribute_id, asset_id, attribute_name, some last_observed, detail, AttributeStatus.good⟩
  ({ s with attributes := s.attributes ++ [attr], next_attribute_id := s.next_attribute_id + 1 }, attr)

/-- `operations.update_attribute` (lines 174-190): update observed time and/or
detail and/or status of an existing row; an argument left at `None` (here
`none`) leaves the corresponding column untouched (for `status`, the
`isinstance` check rejects `None`). -/
def update_attribute (attr : Attribute) (last_observed : Option Int)
    (detail : Option String) (status : Option AttributeStatus) : Attribute :=
  let a1 := match last_observed with
            | some t => { attr with last_observed := some t }
            | none => attr
  let a2 := match detail with
            | some d => { a1 with detail := d }
            | none => a1
  match status with
  | some st => { a2 with status := st }
  | none => a2

/-- Commit a mutated attribute row back to the store. -/
def update_attribute_in_store (s : Store) (a : Attribute) : Store :=
  { s with attributes := s.attributes.map (fun x => if x.id = a.id then a else x) }

/-- The classifier run against the store for one asset, as the merge engine
invokes it (core.py lines 268-270): the attribute rows of the asset are read
with `get_asset_attributes`, their status sweep runs exactly when the flag is
set and the asset is inside its absence window (source lines 69-88), and the
asset row is written back. -/
def classify_in_store (S : Settings) (now : Int) (s : Store) (asset : Asset)
    (evaluate_attribute_status : Bool) : Store :=
  let attrs := get_asset_attributes s asset.id
  let res := evaluate_asset_attributes_and_update_status S now asset attrs evaluate_attribute_status
  let s1 :=
    if evaluate_attribute_status
        ∧ ¬(time_since_observation now asset.last_observed > days S.max_asset_absence) then
      { s with attributes :=
          s.attributes.map (fun a =>
            if a.asset_id = asset.id then evaluate_attribute_age now S.max_attribute_absence a else a) }
    else s
  update_asset_in_store s1 res.1

/-! ### Events (`core.asset_data_parser`, core.py 147-271)

An event is a loosely structured field set.  Field values are either strings
or datetimes; the source accesses them through `dict.get`, where a missing key
yields `None` and Python truthiness treats the empty string as absent.  (The
source would raise on a non-string under a hostname or attribute-name key; the
model only admits the string-valued events the feeds produce there.) -/

inductive EValue where
  | str (s : String)
  | time (t : Int)
deriving DecidableEq

structure Event where
  fields : List (String × EValue)
deriving DecidableEq

def Event.get (e : Event) (k : String) : Option EValue :=
  (e.fields.find? (fun f => f.1 = k)).map (fun f => f.2)

/-- Python truthiness of a field value: the empty string is falsy, every
datetime is truthy. -/
def EValue.truthy : EValue → Bool
  | .str s => s ≠ ""
  | .time _ => true

def Event.getStr (e : Event) (k : String) : Option String :=
  match e.get k with
  | some (.str s) => some s
  | _ => none

/-- The `for key in field_map[...]` loops (source lines 186-190, 195-198,
206-209): the first key whose value is present and truthy; the trailing
`if not x` check makes a loop that found nothing equivalent to `none` for the
non-empty default key lists. -/
def first_truthy (keys : List String) (e : Event) : Option EValue :=
  match keys with
  | [] => none
  | k :: rest =>
    match e.get k with
    | some v => if v.truthy then some v else first_truthy rest e
    | none => first_truthy rest e

/-- `hostname[hostname.rfind(chr(92)) + 1:]` when a backslash is present: keep
the substring after the last backslash (source line 189). -/
def strip_domain (h : String) : String :=
  ((h.data.reverse.takeWhile (fun c => c ≠ Char.ofNat 92)).reverse).asString

/-- Lines 186-193: resolve the hostname, strip the domain part, skip the event
when the result is absent or empty. -/
def resolve_hostname (keys : List String) (e : Event) : Option String :=
  match first_truthy keys e with
  | some (EValue.str h) =>
    let h' := strip_domain h
    if h' = "" then none else some h'
  | _ => none

/-- `json.dumps` of a field value; `json.dumps` raises on a datetime and the
bare `except` falls back to `str(detail)` (lines 201-204).  The exact rendering
carries no logic; the model keeps it injective enough to compare details. -/
def serializeValue : EValue → String
  | EValue.str s => "\"" ++ s ++ "\""
  | EValue.time t => toString t

/-- `json.dumps(event)` for the whole-event fallback (line 200). -/
def serializeEvent (e : Event) : String :=
  String.intercalate "," (e.fields.map (fun f => f.1 ++ ":" ++ serializeValue f.2))

/-- Lines 195-204: resolve the detail payload, defaulting to the whole event. -/
def resolve_detail (keys : List String) (e : Event) : String :=
  match first_truthy keys e with
  | some v => serializeValue v
  | none => serializeEvent e

/-- Lines 206-227: resolve the observed time.  A value that is already a
datetime is used as is; a string goes through `dateutil.parser.isoparse` and
then `dateutil.parser.parse` — abstracted as one partial parse function
`parse_time` — and the event is skipped when no key yields a value or parsing
fails. -/
def resolve_observed_time (parse_time : String → Option Int) (keys : List String)
    (e : Event) : Option Int :=
  match first_truthy keys e with
  | some (EValue.time t) => some t
  | some (EValue.str s) => parse_time s
  | none => none

/-- Lines 180-184: the per-event attribute-name step.  `attribute_name` is the
enclosing function's variable: when it is `None` the event's field is read
*into that variable*, so a name read from one event persists for the events
after it.  Returns the new value of the variable and the name to use for this
event (`none` = skip). -/
def resolve_attribute_name (cached : Option String) (e : Event) :
    Option String × Option String :=
  match cached with
  | some n => (some n, some n)
  | none =>
    match e.getStr "attribute_name" with
    | some s => if s = "" then (some "", none) else (some s, some s)
    | none => (none, none)

/-- The context of one ingestion call: the field map (defaults from
`DEFAULT_DATA_FIELD_MAP`), the time-parsing oracle, the settings, the current
time and the `evaluate_attribute_status` flag (default `False`). -/
structure ParseCtx where
  hostname_keys : List String := ["hostname", "name", "displayName"]
  last_observed_keys : List String :=
    ["last_observed", "event_time", "_time", "approximateLastSignInDateTime", "last_contact_time"]
  detail_keys : List String := ["attribute_detail"]
  parse_time : String → Option Int
  settings : Settings
  now : Int
  evaluate_attribute_status : Bool := false

/-- The `with get_db_session() as session:` block of the per-event loop
(core.py 229-270): asset upsert, attribute upsert, re-classification.  The
result is the new store; `none` marks the one uncaught exception of the block
(dereferencing a null stored attribute timestamp at line 249), which the merge
engine itself never produces since every attribute it writes carries a
timestamp. -/
def ingest_observation (S : Settings) (now : Int) (flag : Bool) (s : Store)
    (hostname attrName : String) (observed_time : Int) (detail : String) : Option Store :=
  -- get or create the asset
  match (match get_asset_by_name s hostname with
         | some a => some (s, a)
         | none => create_asset s hostname (some observed_time)) with
  | none => some s                       -- failed to create the asset: skip
  | some (s1, asset) =>
    -- update the asset observation time when null or older
    let upd : Bool := match asset.last_observed with
                      | none => true
                      | some t0 => observed_time > t0
    let (s2, asset2) :=
      if upd then update_asset_observation_time s1 asset observed_time else (s1, asset)
    -- does this attribute already exist?
    match get_attribute_by_name s2 asset2.id attrName with
    | some attr =>
      match attr.last_observed with
      | none => none                     -- line 249 would raise on a null timestamp
      | some t0 =>
        if observed_time > t0 then
          let attr' := update_attribute attr (some observed_time) (some detail) none
          let s3 := update_attribute_in_store s2 attr'
          some (classify_in_store S now s3 asset2 flag)
        else
          -- data appears older than our current attribute: skip
          some s2
    | none =>
      let (s3, _) := assign_attribute s2 asset2.id attrName observed_time detail
      some (classify_in_store S now s3 asset2 flag)

/-- The body of the per-event loop (core.py 178-270): field resolution, then
the session block.  Returns the new value of the `attribute_name` variable and
the new store (`none` = the uncaught exception of `ingest_observation`). -/
def process_event (ctx : ParseCtx) (cached : Option String) (event : Event) (s : Store) :
    Option String × Option Store :=
  match resolve_attribute_name cached event with
  | (c', none) => (c', some s)           -- no attribute_name supplied: skip
  | (c', some attrName) =>
    match resolve_hostname ctx.hostname_keys event with
    | none => (c', some s)               -- failed to get a hostname: skip
    | some hostname =>
      let detail := resolve_detail ctx.detail_keys event
      match resolve_observed_time ctx.parse_time ctx.last_observed_keys event with
      | none => (c', some s)             -- no/unparseable observation time: skip
      | some observed_time =>
        (c', ingest_observation ctx.settings ctx.now ctx.evaluate_attribute_status
               s hostname attrName observed_time detail)

/-- The ingestion entry point (the `for event in data` loop of core.py
160-271), threading the `attribute_name` variable through the iterations. -/
def asset_data_ingest (ctx : ParseCtx) :
    List Event → Option String → Store → Option Store
  | [], _, s => some s
  | event :: rest, attrName, s =>
    match process_event ctx attrName event s with
    | (c', some s') => asset_data_ingest ctx rest c' s'
    | (_, none) => none

/-! ### Helper lemmas about the classifier -/

theorem Asset.eta_status (a : Asset) (st : Status) (h : a.status = st) :
    { a with status := st } = a := by
  cases a
  cases h
  rfl

/-- The target status of the classifier for an asset that is not `rogue`:
`unknown` when the asset is outside its absence window, otherwise `compliant`
or `non_compliant` by the requirement evaluation. -/
def classify_target (S : Settings) (now : Int) (lastObs : Option Int)
    (attrs : List Attribute) : Status :=
  if time_since_observation now lastObs > days S.max_asset_absence then Status.unknown
  else if requirements_met S attrs then Status.compliant
  else Status.non_compliant

/-- The boolean `compliant` computed on source lines 101-111 equals the spec's
requirement condition. -/
theorem compliant_eq_requirements_met (S : Settings) (attrs : List Attribute) :
    (if ((if (!S.require_all_attributes.isEmpty
              && !(S.require_all_attributes.all (fun tool => (good_attribute_names attrs).contains (pyLower tool))))
            then false else true)
          && !S.require_one_attribute.isEmpty
          && !(S.require_one_attribute.any (fun tool => (good_attribute_names attrs).contains (pyLower tool))))
       then false
       else (if (!S.require_all_attributes.isEmpty
                && !(S.require_all_attributes.all (fun tool => (good_attribute_names attrs).contains (pyLower tool))))
             then false else true))
    = requirements_met S attrs := by
  have hab : S.require_all_attributes.isEmpty = true →
      (S.require_all_attributes.all
        (fun tool => (good_attribute_names attrs).contains (pyLower tool))) = true := by
    intro h
    rw [List.isEmpty_iff.mp h]
    rfl
  revert hab
  simp only [requirements_met]
  generalize (S.require_all_attributes.all
    (fun tool => (good_attribute_names attrs).contains (pyLower tool))) = b
  generalize (S.require_one_attribute.any
    (fun tool => (good_attribute_names attrs).contains (pyLower tool))) = d
  generalize S.require_all_attributes.isEmpty = a
  generalize S.require_one_attribute.isEmpty = c
  intro hab
  cases a <;> cases b <;> cases c <;> cases d <;> simp_all

/-- The attribute rows the classifier hands back: untouched when the asset is
outside its absence window (the staleness branch returns before the sweep) or
when the sweep flag is off; swept otherwise. -/
def classifier_attrs (S : Settings) (now : Int) (lastObs : Option Int)
    (attrs : List Attribute) (flag : Bool) : List Attribute :=
  if time_since_observation now lastObs > days S.max_asset_absence then attrs
  else if flag then evaluate_age_of_all_attributes_and_update_status now S.max_attribute_absence attrs
  else attrs

/-- Closed form of the classifier on a non-`rogue` asset: only the status
field changes, to exactly `classify_target`. -/
theorem classify_not_rogue (S : Settings) (now : Int) (asset : Asset)
    (attrs : List Attribute) (flag : Bool) (h : asset.status ≠ Status.rogue) :
    evaluate_asset_attributes_and_update_status S now asset attrs flag
      = ({ asset with status := classify_target S now asset.last_observed (classifier_attrs S now asset.last_observed attrs flag) },
         classifier_attrs S now asset.last_observed attrs flag) := by
  unfold evaluate_asset_attributes_and_update_status classify_target classifier_attrs
  by_cases hst : time_since_observation now asset.last_observed > days S.max_asset_absence
  · rw [if_pos hst, if_pos hst, if_pos hst]
    by_cases hu : asset.status = Status.unknown
    · rw [if_neg (by simp [hu])]
      rw [Asset.eta_status asset Status.unknown hu]
    · rw [if_pos ⟨hu, h⟩]
  · rw [if_neg hst, if_neg hst, if_neg hst]
    dsimp only
    set attrs' := if flag = true
      then evaluate_age_of_all_attributes_and_update_status now S.max_attribute_absence attrs
      else attrs with hattrs
    by_cases hee : (S.require_all_attributes.isEmpty && S.require_one_attribute.isEmpty) = true
    · rw [if_pos hee]
      have : requirements_met S attrs' = true := by
        simp only [Bool.and_eq_true] at hee
        simp [requirements_met, List.isEmpty_iff.mp hee.1, List.isEmpty_iff.mp hee.2]
      rw [if_pos this]
    · rw [if_neg hee]
      rw [compliant_eq_requirements_met S attrs']
      by_cases hc : requirements_met S attrs' = true
      · rw [if_pos hc, if_pos hc]
      · rw [if_neg hc, if_neg hc, if_neg h]
        by_cases hnc : asset.status = Status.non_compliant
        · rw [if_neg (by simp [hnc])]
          rw [Asset.eta_status asset Status.non_compliant hnc]
        · rw [if_pos hnc]

/-- Closed form of the classifier on a `rogue` asset: it either promotes to
`compliant` (inside the window, requirements met) or leaves the row alone. -/
theorem classify_rogue (S : Settings) (now : Int) (asset : Asset)
    (attrs : List Attribute) (flag : Bool) (h : asset.status = Status.rogue) :
    evaluate_asset_attributes_and_update_status S now asset attrs flag
      = (if ¬(time_since_observation now asset.last_observed > days S.max_asset_absence)
            ∧ requirements_met S (classifier_attrs S now asset.last_observed attrs flag) = true
         then { asset with status := Status.compliant }
         else asset,
         classifier_attrs S now asset.last_observed attrs flag) := by
  unfold evaluate_asset_attributes_and_update_status classifier_attrs
  by_cases hst : time_since_observation now asset.last_observed > days S.max_asset_absence
  · rw [if_pos hst, if_pos hst]
    rw [if_neg (by simp [h])]
    rw [if_neg (by simp [hst])]
  · rw [if_neg hst, if_neg hst]
    dsimp only
    set attrs' := if flag = true
      then evaluate_age_of_all_attributes_and_update_status now S.max_attribute_absence attrs
      else attrs with hattrs
    by_cases hee : (S.require_all_attributes.isEmpty && S.require_one_attribute.isEmpty) = true
    · rw [if_pos hee]
      have hm : requirements_met S attrs' = true := by
        simp only [Bool.and_eq_true] at hee
        simp [requirements_met, List.isEmpty_iff.mp hee.1, List.isEmpty_iff.mp hee.2]
      rw [if_pos ⟨hst, hm⟩]
    · rw [if_neg hee]
      rw [compliant_eq_requirements_met S attrs']
      by_cases hc : requirements_met S attrs' = true
      · rw [if_pos hc, if_pos ⟨hst, hc⟩]
      · rw [if_neg hc, if_pos h, if_neg (by simp [hc])]

/-- Inside the absence window the classifier lands on `compliant` exactly when
the requirement condition holds on the attribute rows it evaluated. -/
theorem classify_compliant_iff (S : Settings) (now : Int) (asset : Asset)
    (attrs : List Attribute) (flag : Bool)
    (hst : ¬(time_since_observation now asset.last_observed > days S.max_asset_absence)) :
    (evaluate_asset_attributes_and_update_status S now asset attrs flag).1.status = Status.compliant
      ↔ requirements_met S
          ((evaluate_asset_attributes_and_update_status S now asset attrs flag).2) = true := by
  by_cases h : asset.status = Status.rogue
  · rw [classify_rogue S now asset attrs flag h]
    by_cases hc : requirements_met S (classifier_attrs S now asset.last_observed attrs flag) = true
    · rw [if_pos ⟨hst, hc⟩]
      simp [hc]
    · rw [if_neg (by simp [hc])]
      simp [h, hc]
  · rw [classify_not_rogue S now asset attrs flag h]
    unfold classify_target
    rw [if_neg hst]
    by_cases hc : requirements_met S (classifier_attrs S now asset.last_observed attrs flag) = true
    · simp [hc]
    · simp [hc]

/-- The flag-off classifier hands the attribute rows back unchanged. -/
theorem classifier_attrs_flag_off (S : Settings) (now : Int) (lastObs : Option Int)
    (attrs : List Attribute) : classifier_attrs S now lastObs attrs false = attrs := by
  unfold classifier_attrs
  split <;> simp

/-- Bool-to-Prop reading of `requirements_met`, in the spec's phrasing. -/
theorem requirements_met_iff (S : Settings) (attrs : List Attribute) :
    requirements_met S attrs = true
      ↔ ((∀ tool ∈ S.require_all_attributes, pyLower tool ∈ good_attribute_names attrs)
         ∧ (S.require_one_attribute = []
            ∨ ∃ tool ∈ S.require_one_attribute, pyLower tool ∈ good_attribute_names attrs)) := by
  simp [requirements_met, List.all_eq_true, List.any_eq_true, List.isEmpty_iff]

/-! ### Claims about the Compliance Classifier -/

/-- **C1.** For an asset inside the absence window, the classifier computes
`compliant` iff every `require_all` name is among the lower-cased names of the
asset's attributes whose stored status is `good` (vacuously true when
`require_all` is empty) and `require_one` shares at least one name with that
good set (vacuously true when `require_one` is empty); with both requirement
sets empty the result is always `compliant`.  Matching is case-insensitive
(both sides lower-cased). -/
theorem C1_compliant_iff (S : Settings) (now : Int) (asset : Asset)
    (attrs : List Attribute)
    (h : time_since_observation now asset.last_observed ≤ days S.max_asset_absence) :
    ((evaluate_asset_attributes_and_update_status S now asset attrs false).1.status = Status.compliant
      ↔ ((∀ tool ∈ S.require_all_attributes, pyLower tool ∈ good_attribute_names attrs)
         ∧ (S.require_one_attribute = []
            ∨ ∃ tool ∈ S.require_one_attribute, pyLower tool ∈ good_attribute_names attrs)))
    ∧ (S.require_all_attributes = [] → S.require_one_attribute = [] →
       (evaluate_asset_attributes_and_update_status S now asset attrs false).1.status = Status.compliant) := by
  have hst : ¬(time_since_observation now asset.last_observed > days S.max_asset_absence) := by omega
  have hiff := classify_compliant_iff S now asset attrs false hst
  have hattrs :
      (evaluate_asset_attributes_and_update_status S now asset attrs false).2 = attrs := by
    by_cases hr : asset.status = Status.rogue
    · rw [classify_rogue S now asset attrs false hr, classifier_attrs_flag_off]
    · rw [classify_not_rogue S now asset attrs false hr, classifier_attrs_flag_off]
  rw [hattrs] at hiff
  constructor
  · rw [hiff]
    exact requirements_met_iff S attrs
  · intro hall hone
    rw [hiff, requirements_met_iff]
    exact ⟨by simp [hall], Or.inl hone⟩

theorem C1_compliant_iff_witness :
    (time_since_observation 0 (some 0) ≤ days (6 : Int))
    ∧ ((evaluate_asset_attributes_and_update_status
          { require_all_attributes := ["EDR"] } 0 ⟨0, "A", Status.unknown, some 0⟩
          [⟨0, 0, "edr", some 0, "d", AttributeStatus.good⟩] false).1.status = Status.compliant
        ↔ ((∀ tool ∈ ["EDR"], pyLower tool ∈ good_attribute_names [⟨0, 0, "edr", some 0, "d", AttributeStatus.good⟩])
           ∧ (([] : List String) = []
              ∨ ∃ tool ∈ ([] : List String),
                  pyLower tool ∈ good_attribute_names [⟨0, 0, "edr", some 0, "d", AttributeStatus.good⟩]))) :=
  ⟨by decide,
   (C1_compliant_iff { require_all_attributes := ["EDR"] } 0 ⟨0, "A", Status.unknown, some 0⟩
     [⟨0, 0, "edr", some 0, "d", AttributeStatus.good⟩] (by decide)).1⟩

/-- **C2.** For an asset whose elapsed time since its own last observation
exceeds `maxAssetAbsenceDays`, the classifier leaves an `unknown` or `rogue`
status unchanged, sets every other status to `unknown`, and returns without
evaluating attributes (the attribute rows are returned untouched even with the
sweep flag set); the resulting status is always `unknown` or `rogue`. -/
theorem C2_stale_asset (S : Settings) (now : Int) (asset : Asset)
    (attrs : List Attribute) (flag : Bool)
    (h : time_since_observation now asset.last_observed > days S.max_asset_absence) :
    (evaluate_asset_attributes_and_update_status S now asset attrs flag).2 = attrs
    ∧ ((asset.status = Status.unknown ∨ asset.status = Status.rogue) →
        (evaluate_asset_attributes_and_update_status S now asset attrs flag).1 = asset)
    ∧ (¬(asset.status = Status.unknown ∨ asset.status = Status.rogue) →
        (evaluate_asset_attributes_and_update_status S now asset attrs flag).1
          = { asset with status := Status.unknown })
    ∧ ((evaluate_asset_attributes_and_update_status S now asset attrs flag).1.status = Status.unknown
       ∨ (evaluate_asset_attributes_and_update_status S now asset attrs flag).1.status = Status.rogue) := by
  unfold evaluate_asset_attributes_and_update_status
  rw [if_pos h]
  by_cases hc : asset.status ≠ Status.unknown ∧ asset.status ≠ Status.rogue
  · rw [if_pos hc]
    refine ⟨rfl, ?_, fun _ => rfl, Or.inl rfl⟩
    intro habs
    exact absurd habs (by tauto)
  · rw [if_neg hc]
    have : asset.status = Status.unknown ∨ asset.status = Status.rogue := by tauto
    exact ⟨rfl, fun _ => rfl, fun habs => absurd this habs, by tauto⟩

theorem C2_stale_asset_witness :
    (time_since_observation (days 10) (some 0) > days (6 : Int))
    ∧ ((evaluate_asset_attributes_and_update_status {} (days 10)
          ⟨0, "A", Status.compliant, some 0⟩ [] true).1
        = { (⟨0, "A", Status.compliant, some 0⟩ : Asset) with status := Status.unknown }) :=
  ⟨by decide,
   (C2_stale_asset {} (days 10) ⟨0, "A", Status.compliant, some 0⟩ [] true (by decide)).2.2.1
     (by decide)⟩

/-- **C3.** The classifier never writes `unknown` or `non_compliant` over a
`rogue` status: a `rogue` asset is exempt from the asset-staleness rule and
from the non-compliance downgrade (its row is returned unchanged unless it is
promoted), it can only remain `rogue` or move to `compliant` when the
requirement condition holds on the evaluated attributes; and the classifier
never assigns `rogue` to any asset that was not already `rogue`. -/
theorem C3_rogue_protected (S : Settings) (now : Int) (asset : Asset)
    (attrs : List Attribute) (flag : Bool) :
    (asset.status = Status.rogue →
      (evaluate_asset_attributes_and_update_status S now asset attrs flag).1.status ≠ Status.unknown
      ∧ (evaluate_asset_attributes_and_update_status S now asset attrs flag).1.status ≠ Status.non_compliant
      ∧ ((evaluate_asset_attributes_and_update_status S now asset attrs flag).1.status = Status.compliant
          → requirements_met S ((evaluate_asset_attributes_and_update_status S now asset attrs flag).2) = true)
      ∧ ((evaluate_asset_attributes_and_update_status S now asset attrs flag).1.status = Status.rogue
          → (evaluate_asset_attributes_and_update_status S now asset attrs flag).1 = asset))
    ∧ ((evaluate_asset_attributes_and_update_status S now asset attrs flag).1.status = Status.rogue
        → asset.status = Status.rogue) := by
  constructor
  · intro hr
    rw [classify_rogue S now asset attrs flag hr]
    by_cases hc : ¬(time_since_observation now asset.last_observed > days S.max_asset_absence)
        ∧ requirements_met S (classifier_attrs S now asset.last_observed attrs flag) = true
    · rw [if_pos hc]
      exact ⟨by simp, by simp, fun _ => hc.2, by simp⟩
    · rw [if_neg hc]
      exact ⟨by simp [hr], by simp [hr], by simp [hr], fun _ => rfl⟩
  · intro hres
    by_cases hr : asset.status = Status.rogue
    · exact hr
    · rw [classify_not_rogue S now asset attrs flag hr] at hres
      simp only at hres
      unfold classify_target at hres
      revert hres
      split
      · intro hres
        exact absurd hres (by simp)
      · split
        · intro hres
          exact absurd hres (by simp)
        · intro hres
          exact absurd hres (by simp)

theorem C3_rogue_protected_witness :
    ((evaluate_asset_attributes_and_update_status { require_all_attributes := ["EDR"] } 0
        ⟨0, "A", Status.rogue, some 0⟩ [] false).1.status ≠ Status.unknown)
    ∧ ((evaluate_asset_attributes_and_update_status { require_all_attributes := ["EDR"] } 0
        ⟨0, "A", Status.rogue, some 0⟩ [] false).1.status ≠ Status.non_compliant) :=
  ⟨((C3_rogue_protected { require_all_attributes := ["EDR"] } 0
      ⟨0, "A", Status.rogue, some 0⟩ [] false).1 rfl).1,
   ((C3_rogue_protected { require_all_attributes := ["EDR"] } 0
      ⟨0, "A", Status.rogue, some 0⟩ [] false).1 rfl).2.1⟩

/-! ### Claims about the Attribute Staleness Evaluator -/

/-- Closed form of the per-attribute staleness result: `missing` exactly when
the attribute is outside its absence window, `good` otherwise; only the status
field changes. -/
theorem evaluate_attribute_age_eq (now maxAbs : Int) (a : Attribute) :
    evaluate_attribute_age now maxAbs a
      = { a with status :=
            if time_since_observation now a.last_observed > days maxAbs
            then AttributeStatus.missing else AttributeStatus.good } := by
  unfold evaluate_attribute_age
  by_cases hst : time_since_observation now a.last_observed > days maxAbs
  · rw [if_pos hst, if_pos hst]
  · rw [if_neg hst, if_neg hst]
    by_cases hm : a.status = AttributeStatus.missing
    · rw [if_pos hm]
    · rw [if_neg hm]
      cases ha : a.status
      · cases a
        cases ha
        rfl
      · exact absurd ha hm

/-- **C7.** The staleness evaluator classifies every attribute `missing` iff
`now − last_observed` exceeds the threshold and `good` otherwise; an attribute
with no last-observed timestamp counts as elapsed time zero and is never
marked `missing` (for a non-negative threshold); the evaluation is idempotent;
and whenever the computed status differs from the stored one a status write is
issued. -/
theorem C7_attribute_staleness (now maxAbs : Int) (attrs : List Attribute) :
    ((evaluate_age_of_all_attributes_and_update_status now maxAbs attrs).map (fun a => a.status)
       = attrs.map (fun a =>
           if time_since_observation now a.last_observed > days maxAbs
           then AttributeStatus.missing else AttributeStatus.good))
    ∧ (evaluate_age_of_all_attributes_and_update_status now maxAbs
        (evaluate_age_of_all_attributes_and_update_status now maxAbs attrs)
       = evaluate_age_of_all_attributes_and_update_status now maxAbs attrs)
    ∧ (∀ a ∈ attrs, a.last_observed = none → 0 ≤ maxAbs →
         (evaluate_attribute_age now maxAbs a).status = AttributeStatus.good)
    ∧ (∀ a ∈ attrs,
         (if time_since_observation now a.last_observed > days maxAbs
          then AttributeStatus.missing else AttributeStatus.good) ≠ a.status →
         attribute_age_write now maxAbs a = true) := by
  refine ⟨?_, ?_, ?_, ?_⟩
  · unfold evaluate_age_of_all_attributes_and_update_status
    rw [List.map_map]
    apply List.map_congr_left
    intro a _
    rw [Function.comp_apply, evaluate_attribute_age_eq]
  · unfold evaluate_age_of_all_attributes_and_update_status
    rw [List.map_map]
    apply List.map_congr_left
    intro a _
    rw [Function.comp_apply, evaluate_attribute_age_eq now maxAbs a,
        evaluate_attribute_age_eq now maxAbs]
  · intro a _ hnone hpos
    have hc : ¬(time_since_observation now a.last_observed > days maxAbs) := by
      rw [hnone]
      show ¬((0 : Int) > maxAbs * 86400)
      omega
    rw [evaluate_attribute_age_eq]
    dsimp only
    rw [if_neg hc]
  · intro a _ hdiff
    unfold attribute_age_write
    by_cases hst : time_since_observation now a.last_observed > days maxAbs
    · rw [if_pos hst]
    · rw [if_neg hst]
      rw [if_neg hst] at hdiff
      cases ha : a.status
      · exact absurd ha.symm hdiff
      · rfl

theorem C7_attribute_staleness_witness :
    ((⟨0, 0, "edr", none, "d", AttributeStatus.missing⟩ : Attribute) ∈
        [(⟨0, 0, "edr", none, "d", AttributeStatus.missing⟩ : Attribute)])
    ∧ (⟨0, 0, "edr", none, "d", AttributeStatus.missing⟩ : Attribute).last_observed = none
    ∧ (0 : Int) ≤ 4
    ∧ (evaluate_attribute_age 0 4 ⟨0, 0, "edr", none, "d", AttributeStatus.missing⟩).status
        = AttributeStatus.good :=
  ⟨by decide, rfl, by decide,
   (C7_attribute_staleness 0 4 [⟨0, 0, "edr", none, "d", AttributeStatus.missing⟩]).2.2.1
     ⟨0, 0, "edr", none, "d", AttributeStatus.missing⟩ (by decide) rfl (by decide)⟩

/-- **C10.** An asset with a null last-observed timestamp has elapsed time
zero, so (for a non-negative configured window) the asset-staleness branch is
never taken: the result is never `unknown` and classification proceeds to the
attribute-requirement evaluation (`compliant` exactly when the requirement
condition holds). -/
theorem C10_null_asset_observation (S : Settings) (now : Int) (asset : Asset)
    (attrs : List Attribute) (flag : Bool)
    (hnull : asset.last_observed = none) (hpos : 0 ≤ S.max_asset_absence) :
    time_since_observation now asset.last_observed = 0
    ∧ (evaluate_asset_attributes_and_update_status S now asset attrs flag).1.status ≠ Status.unknown
    ∧ ((evaluate_asset_attributes_and_update_status S now asset attrs flag).1.status = Status.compliant
        ↔ requirements_met S
            ((evaluate_asset_attributes_and_update_status S now asset attrs flag).2) = true) := by
  have helapsed : time_since_observation now asset.last_observed = 0 := by
    rw [hnull]
    rfl
  have hst : ¬(time_since_observation now asset.last_observed > days S.max_asset_absence) := by
    rw [helapsed]
    unfold days
    omega
  refine ⟨helapsed, ?_, classify_compliant_iff S now asset attrs flag hst⟩
  by_cases hr : asset.status = Status.rogue
  · rw [classify_rogue S now asset attrs flag hr]
    split
    · simp
    · simp [hr]
  · rw [classify_not_rogue S now asset attrs flag hr]
    simp only
    unfold classify_target
    rw [if_neg hst]
    split <;> simp

theorem C10_null_asset_observation_witness :
    (⟨0, "A", Status.unknown, none⟩ : Asset).last_observed = none
    ∧ (0 : Int) ≤ (6 : Int)
    ∧ (evaluate_asset_attributes_and_update_status {} 5 ⟨0, "A", Status.unknown, none⟩ [] false).1.status
        ≠ Status.unknown :=
  ⟨rfl, by decide,
   (C10_null_asset_observation {} 5 ⟨0, "A", Status.unknown, none⟩ [] false rfl (by decide)).2.1⟩

/-! ### Claims about asset identity (`operations.create_asset` /
`operations.get_asset_by_name`) -/

/-- Every stored hostname is in the canonical upper-case form (what
`create_asset` enforces on insertion). -/
def HostnamesNormalized (s : Store) : Prop :=
  ∀ a ∈ s.assets, pyUpper a.hostname = a.hostname

/-- At most one asset per case-insensitive hostname. -/
def CaseInsensitiveUnique (s : Store) : Prop :=
  s.assets.Pairwise (fun a b => pyUpper a.hostname ≠ pyUpper b.hostname)

/-- **C8.** Asset identity is case-insensitive with uppercase as the canonical
stored form: an asset created from any store satisfying the two invariants is
found again by `get_asset_by_name` under any case variant of its hostname, the
invariants (canonical form, at most one asset per case-insensitive hostname)
are preserved, and creation fails only when an asset with the same
case-insensitive hostname already exists. -/
theorem C8_case_insensitive_identity (s : Store) (h hq : String) (t : Option Int)
    (hnorm : HostnamesNormalized s) (huniq : CaseInsensitiveUnique s) :
    (∀ s' asset, create_asset s h t = some (s', asset) →
       (pyUpper hq = pyUpper h → get_asset_by_name s' hq = some asset)
       ∧ HostnamesNormalized s' ∧ CaseInsensitiveUnique s')
    ∧ (create_asset s h t = none → ∃ a ∈ s.assets, pyUpper a.hostname = pyUpper h) := by
  constructor
  · intro s' asset hcreate
    unfold create_asset at hcreate
    by_cases hany : s.assets.any (fun a => a.hostname = pyUpper h) = true
    · rw [if_pos hany] at hcreate
      exact absurd hcreate (by simp)
    · rw [if_neg hany] at hcreate
      simp only [Option.some_inj, Prod.mk.injEq] at hcreate
      obtain ⟨hs', hasset⟩ := hcreate
      subst hs'
      subst hasset
      have hnotmem : ∀ a ∈ s.assets, ¬(a.hostname = pyUpper h) := by
        intro a ha hcontra
        apply hany
        rw [List.any_eq_true]
        exact ⟨a, ha, decide_eq_true hcontra⟩
      refine ⟨?_, ?_, ?_⟩
      · intro hcase
        unfold get_asset_by_name
        simp only [List.find?_append]
        have h1 : s.assets.find? (fun a => pyUpper a.hostname = pyUpper hq) = none := by
          rw [List.find?_eq_none]
          intro a ha
          simp only [decide_eq_true_eq]
          intro hcontra
          apply hnotmem a ha
          rw [← hnorm a ha, hcontra, hcase]
        rw [h1]
        simp only [Option.none_or]
        have h2 : pyUpper (pyUpper h) = pyUpper hq := by
          rw [pyUpper_pyUpper, hcase]
        simp [List.find?, h2]
      · intro a ha
        simp only [List.mem_append, List.mem_singleton] at ha
        rcases ha with ha | ha
        · exact hnorm a ha
        · subst ha
          show pyUpper (pyUpper h) = pyUpper h
          exact pyUpper_pyUpper h
      · rw [CaseInsensitiveUnique, List.pairwise_append]
        refine ⟨huniq, List.pairwise_singleton _ _, ?_⟩
        intro a ha b hb
        simp only [List.mem_singleton] at hb
        subst hb
        show pyUpper a.hostname ≠ pyUpper (pyUpper h)
        rw [pyUpper_pyUpper, hnorm a ha]
        exact hnotmem a ha
  · intro hfail
    unfold create_asset at hfail
    by_cases hany : s.assets.any (fun a => a.hostname = pyUpper h) = true
    · simp only [List.any_eq_true, decide_eq_true_eq] at hany
      obtain ⟨a, ha, heq⟩ := hany
      exact ⟨a, ha, by rw [heq, pyUpper_pyUpper]⟩
    · rw [if_neg hany] at hfail
      exact absurd hfail (by simp)

theorem C8_case_insensitive_identity_witness :
    HostnamesNormalized emptyStore
    ∧ CaseInsensitiveUnique emptyStore
    ∧ pyUpper "host1" = pyUpper "HOST1"
    ∧ pyUpper "Host1" = pyUpper "HOST1"
    ∧ (∀ s' asset, create_asset emptyStore "HOST1" none = some (s', asset) →
         get_asset_by_name s' "host1" = some asset)
    ∧ (∀ s' asset, create_asset emptyStore "HOST1" none = some (s', asset) →
         get_asset_by_name s' "Host1" = some asset) :=
  ⟨by simp [HostnamesNormalized, emptyStore],
   by simp [CaseInsensitiveUnique, emptyStore],
   by decide, by decide,
   fun s' asset hc =>
     ((C8_case_insensitive_identity emptyStore "HOST1" "host1" none
        (by simp [HostnamesNormalized, emptyStore])
        (by simp [CaseInsensitiveUnique, emptyStore])).1 s' asset hc).1 (by decide),
   fun s' asset hc =>
     ((C8_case_insensitive_identity emptyStore "HOST1" "Host1" none
        (by simp [HostnamesNormalized, emptyStore])
        (by simp [CaseInsensitiveUnique, emptyStore])).1 s' asset hc).1 (by decide)⟩

/-! ### Reduction lemmas for the merge engine on canonical feed events -/

/-- A canonical feed event: a hostname, a detail payload, an already-parsed
observation time, as produced by a typical upstream feed. -/
def mkEvent (h d : String) (t : Int) : Event :=
  ⟨[("hostname", EValue.str h), ("attribute_detail", EValue.str d),
    ("last_observed", EValue.time t)]⟩

/-- The ingestion context for one call with a given configuration, clock and
sweep flag, using the default field map. -/
def mkCtx (S : Settings) (now : Int) (pt : String → Option Int) (flag : Bool) : ParseCtx :=
  { parse_time := pt, settings := S, now := now, evaluate_attribute_status := flag }

theorem resolve_attribute_name_batch (n : String) (e : Event) :
    resolve_attribute_name (some n) e = (some n, some n) := rfl

theorem resolve_observed_time_mkEvent (pt : String → Option Int) (h d : String) (t : Int) :
    resolve_observed_time pt
      ["last_observed", "event_time", "_time", "approximateLastSignInDateTime", "last_contact_time"]
      (mkEvent h d t) = some t := rfl

theorem resolve_hostname_mkEvent (h d : String) (t : Int) (hne : strip_domain h ≠ "") :
    resolve_hostname ["hostname", "name", "displayName"] (mkEvent h d t)
      = some (strip_domain h) := by
  have hh : h ≠ "" := fun heq => hne (by rw [heq]; rfl)
  have hget : (mkEvent h d t).get "hostname" = some (EValue.str h) := rfl
  unfold resolve_hostname
  simp only [first_truthy, hget]
  simp [EValue.truthy, hh, hne]

/-- With the sweep flag off, re-classification only rewrites the asset row. -/
theorem classify_in_store_flag_off (S : Settings) (now : Int) (s : Store) (asset : Asset) :
    classify_in_store S now s asset false
      = update_asset_in_store s
          (evaluate_asset_attributes_and_update_status S now asset
            (get_asset_attributes s asset.id) false).1 := by
  unfold classify_in_store
  rw [if_neg (by simp)]

/-- The classifier's target status is never `rogue`. -/
theorem classify_target_ne_rogue (S : Settings) (now : Int) (lastObs : Option Int)
    (attrs : List Attribute) : classify_target S now lastObs attrs ≠ Status.rogue := by
  unfold classify_target
  split
  · simp
  · split <;> simp

/-- `process_event` on a canonical event with a batch-level source name
reduces to the session block on the resolved triple. -/
theorem process_event_mkEvent (S : Settings) (now t : Int) (pt : String → Option Int)
    (flag : Bool) (n h d : String) (s : Store) (hne : strip_domain h ≠ "") :
    process_event (mkCtx S now pt flag) (some n) (mkEvent h d t) s
      = (some n, ingest_observation S now flag s (strip_domain h) n t
                   (resolve_detail ["attribute_detail"] (mkEvent h d t))) := by
  unfold process_event mkCtx
  rw [resolve_attribute_name_batch]
  dsimp only
  rw [resolve_hostname_mkEvent h d t hne, resolve_observed_time_mkEvent]

/-- The session block on a fresh (empty) store: the asset is created in
canonical form with status `unknown` and the event's observation time, the
attribute is created `good`, and the asset is then re-classified. -/
theorem ingest_observation_empty (S : Settings) (now t : Int) (host n D : String) :
    ingest_observation S now false emptyStore host n t D
      = some ⟨[⟨0, pyUpper host,
                classify_target S now (some t) [⟨0, 0, n, some t, D, AttributeStatus.good⟩],
                some t⟩],
              [⟨0, 0, n, some t, D, AttributeStatus.good⟩], 1, 1⟩ := by
  have hng : ¬(t > t) := by omega
  unfold ingest_observation
  have hlookup : get_asset_by_name emptyStore host = none := rfl
  have hcreate : create_asset emptyStore host (some t)
      = some (⟨[⟨0, pyUpper host, Status.unknown, some t⟩], [], 1, 0⟩,
              ⟨0, pyUpper host, Status.unknown, some t⟩) := rfl
  rw [hlookup, hcreate]
  dsimp only
  rw [if_neg (by simp [hng])]
  have hattr : get_attribute_by_name ⟨[⟨0, pyUpper host, Status.unknown, some t⟩], [], 1, 0⟩ 0 n
      = none := rfl
  rw [hattr]
  dsimp only [assign_attribute]
  simp only [List.nil_append, Nat.zero_add]
  rw [classify_in_store_flag_off]
  have hattrs : get_asset_attributes
      ⟨[⟨0, pyUpper host, Status.unknown, some t⟩],
       [⟨0, 0, n, some t, D, AttributeStatus.good⟩], 1, 1⟩ 0
      = [⟨0, 0, n, some t, D, AttributeStatus.good⟩] := rfl
  rw [hattrs]
  rw [classify_not_rogue _ _ _ _ _ (by simp), classifier_attrs_flag_off]
  rfl

/-- The session block when the asset exists and the incoming observation is
strictly newer than both the asset's and the stored attribute's timestamps:
the asset's observation time advances, the attribute's time and detail are
updated (its status untouched), and the asset is re-classified. -/
theorem ingest_observation_update (S : Settings) (now t ta t0 : Int) (flag : Bool)
    (s : Store) (host n D : String) (a : Asset) (A : Attribute)
    (hget : get_asset_by_name s host = some a)
    (hta : a.last_observed = some ta) (htgta : t > ta)
    (hattr : get_attribute_by_name s a.id n = some A)
    (ht0 : A.last_observed = some t0) (htgt : t > t0) :
    ingest_observation S now flag s host n t D
      = some (classify_in_store S now
          (update_attribute_in_store
            (update_asset_in_store s { a with last_observed := some t })
            (update_attribute A (some t) (some D) none))
          { a with last_observed := some t } flag) := by
  unfold ingest_observation
  rw [hget]
  dsimp only
  rw [hta]
  dsimp only
  rw [if_pos (decide_eq_true htgta)]
  dsimp only [update_asset_observation_time, update_asset_in_store]
  unfold get_attribute_by_name at hattr
  dsimp only [get_attribute_by_name]
  rw [hattr]
  dsimp only
  rw [ht0]
  dsimp only
  rw [if_pos htgt]

/-- The session block when the asset exists and the incoming observation is
not newer than the stored attribute's timestamp: the event is dropped after at
most the asset observation-time refresh; the attribute rows are unchanged and
no re-classification happens. -/
theorem ingest_observation_stale (S : Settings) (now t ta t0 : Int) (flag : Bool)
    (s : Store) (host n D : String) (a : Asset) (A : Attribute)
    (hget : get_asset_by_name s host = some a)
    (hta : a.last_observed = some ta)
    (hattr : get_attribute_by_name s a.id n = some A)
    (ht0 : A.last_observed = some t0) (hstale : ¬(t > t0)) :
    ingest_observation S now flag s host n t D
      = some (if t > ta then update_asset_in_store s { a with last_observed := some t } else s) := by
  unfold ingest_observation
  rw [hget]
  dsimp only
  rw [hta]
  dsimp only
  by_cases hup : t > ta
  · rw [if_pos (decide_eq_true hup), if_pos hup]
    dsimp only [update_asset_observation_time, update_asset_in_store]
    unfold get_attribute_by_name at hattr
    dsimp only [get_attribute_by_name]
    rw [hattr]
    dsimp only
    rw [ht0]
    dsimp only
    rw [if_neg hstale]
  · rw [if_neg (by simp [hup]), if_neg hup]
    dsimp only
    unfold get_attribute_by_name at hattr
    dsimp only [get_attribute_by_name]
    rw [hattr]
    dsimp only
    rw [ht0]
    dsimp only
    rw [if_neg hstale]

/-- Single-row store lookups used when reasoning about merge sequences. -/
theorem get_asset_single (a : Asset) (attrs : List Attribute) (na ni : Nat) (host : String)
    (h : a.hostname = pyUpper host) :
    get_asset_by_name ⟨[a], attrs, na, ni⟩ host = some a := by
  unfold get_asset_by_name
  simp [List.find?_cons, h, pyUpper_pyUpper]

theorem get_attr_single (A : Attribute) (assets : List Asset) (na ni : Nat) (aid : Nat)
    (n : String) (h1 : A.asset_id = aid) (h2 : A.name = n) :
    get_attribute_by_name ⟨assets, [A], na, ni⟩ aid n = some A := by
  unfold get_attribute_by_name
  simp [List.find?_cons, h1, h2]

/-- **C4.** Newest wins, order independent: two merge-engine events for the
same hostname and attribute name with observed times `t1 < t2`, ingested in
either order (here into a fresh store, with the ingestion-default sweep flag
off), leave identical stores, and the stored attribute carries the observed
time and resolved detail of the `t2` event.  Moreover an incoming observation
that is not strictly newer than the stored attribute (nor than the asset's
observation time) is a no-op: the store is returned unchanged. -/
theorem C4_newest_wins_commutes (S : Settings) (now t1 t2 : Int) (pt : String → Option Int)
    (n h d1 d2 : String) (hne : strip_domain h ≠ "") (hlt : t1 < t2) :
    (asset_data_ingest (mkCtx S now pt false) [mkEvent h d1 t1, mkEvent h d2 t2] (some n) emptyStore
      = asset_data_ingest (mkCtx S now pt false) [mkEvent h d2 t2, mkEvent h d1 t1] (some n) emptyStore)
    ∧ (∃ st, asset_data_ingest (mkCtx S now pt false) [mkEvent h d1 t1, mkEvent h d2 t2] (some n)
               emptyStore = some st
        ∧ ∃ a, get_asset_by_name st (strip_domain h) = some a
            ∧ (get_attribute_by_name st a.id n).map (fun A => (A.last_observed, A.detail))
                = some (some t2, resolve_detail ["attribute_detail"] (mkEvent h d2 t2)))
    ∧ (∀ (s : Store) (a : Asset) (A : Attribute) (ta t0 t : Int) (ed : String),
         get_asset_by_name s (strip_domain h) = some a → a.last_observed = some ta →
         get_attribute_by_name s a.id n = some A → A.last_observed = some t0 →
         ¬(t > t0) → ¬(t > ta) →
         process_event (mkCtx S now pt false) (some n) (mkEvent h ed t) s = (some n, some s)) := by
  have htgt : t2 > t1 := hlt
  -- shared abbreviations
  set host := strip_domain h with hhost
  set D1 := resolve_detail ["attribute_detail"] (mkEvent h d1 t1) with hD1
  set D2 := resolve_detail ["attribute_detail"] (mkEvent h d2 t2) with hD2
  -- the attribute row once both events are merged (in either order)
  set A2 : Attribute := ⟨0, 0, n, some t2, D2, AttributeStatus.good⟩ with hA2
  set σ2 := classify_target S now (some t2) [A2] with hσ2
  -- the store after both events, in either order
  set SF : Store := ⟨[⟨0, pyUpper host, σ2, some t2⟩], [A2], 1, 1⟩ with hSF
  -- ingesting [e(t1); e(t2)] from the fresh store yields SF
  have horderA :
      asset_data_ingest (mkCtx S now pt false) [mkEvent h d1 t1, mkEvent h d2 t2] (some n)
        emptyStore = some SF := by
    -- first event: create the asset and the attribute
    set A1 : Attribute := ⟨0, 0, n, some t1, D1, AttributeStatus.good⟩ with hA1
    set σ1 := classify_target S now (some t1) [A1] with hσ1
    set S1 : Store := ⟨[⟨0, pyUpper host, σ1, some t1⟩], [A1], 1, 1⟩ with hS1
    have step1 :
        asset_data_ingest (mkCtx S now pt false) [mkEvent h d1 t1, mkEvent h d2 t2] (some n)
          emptyStore
        = asset_data_ingest (mkCtx S now pt false) [mkEvent h d2 t2] (some n) S1 := by
      simp only [asset_data_ingest]
      rw [process_event_mkEvent S now t1 pt false n h d1 emptyStore hne,
          ingest_observation_empty]
    rw [step1]
    -- second event: strictly newer, updates asset time and attribute time/detail
    have hget1 : get_asset_by_name S1 host = some ⟨0, pyUpper host, σ1, some t1⟩ :=
      get_asset_single _ _ _ _ _ rfl
    have hattr1 : get_attribute_by_name S1 0 n = some A1 :=
      get_attr_single _ _ _ _ _ _ rfl rfl
    simp only [asset_data_ingest]
    rw [process_event_mkEvent S now t2 pt false n h d2 S1 hne,
        ingest_observation_update S now t2 t1 t1 false S1 host n D2
          ⟨0, pyUpper host, σ1, some t1⟩ A1 hget1 rfl htgt hattr1 rfl htgt]
    -- reduce the writebacks and the final classification
    have hs3 : update_attribute_in_store
        (update_asset_in_store S1 ⟨0, pyUpper host, σ1, some t2⟩)
        (update_attribute A1 (some t2) (some D2) none) = (⟨[⟨0, pyUpper host, σ1, some t2⟩], [A2], 1, 1⟩ : Store) := rfl
    have hclass : classify_in_store S now (⟨[⟨0, pyUpper host, σ1, some t2⟩], [A2], 1, 1⟩ : Store)
        ⟨0, pyUpper host, σ1, some t2⟩ false = SF := by
      rw [classify_in_store_flag_off]
      have hga : get_asset_attributes (⟨[⟨0, pyUpper host, σ1, some t2⟩], [A2], 1, 1⟩ : Store)
          (⟨0, pyUpper host, σ1, some t2⟩ : Asset).id = [A2] := rfl
      rw [hga]
      rw [classify_not_rogue S now ⟨0, pyUpper host, σ1, some t2⟩ [A2] false
            (by rw [hσ1]; exact classify_target_ne_rogue S now (some t1) [A1]),
          classifier_attrs_flag_off]
      rfl
    rw [hs3, hclass]
  -- ingesting [e(t2); e(t1)] from the fresh store also yields SF
  have horderB :
      asset_data_ingest (mkCtx S now pt false) [mkEvent h d2 t2, mkEvent h d1 t1] (some n)
        emptyStore = some SF := by
    have step1 :
        asset_data_ingest (mkCtx S now pt false) [mkEvent h d2 t2, mkEvent h d1 t1] (some n)
          emptyStore
        = asset_data_ingest (mkCtx S now pt false) [mkEvent h d1 t1] (some n) SF := by
      simp only [asset_data_ingest]
      rw [process_event_mkEvent S now t2 pt false n h d2 emptyStore hne,
          ingest_observation_empty]
    rw [step1]
    -- the older event is rejected as stale input
    have hgetF : get_asset_by_name SF host = some ⟨0, pyUpper host, σ2, some t2⟩ :=
      get_asset_single _ _ _ _ _ rfl
    have hattrF : get_attribute_by_name SF 0 n = some A2 :=
      get_attr_single _ _ _ _ _ _ rfl rfl
    have hnot : ¬(t1 > t2) := by omega
    simp only [asset_data_ingest]
    rw [process_event_mkEvent S now t1 pt false n h d1 SF hne,
        ingest_observation_stale S now t1 t2 t2 false SF host n D1
          ⟨0, pyUpper host, σ2, some t2⟩ A2 hgetF rfl hattrF rfl hnot]
    rw [if_neg hnot]
  refine ⟨by rw [horderA, horderB], ?_, ?_⟩
  · refine ⟨SF, horderA, ⟨0, pyUpper host, σ2, some t2⟩, ?_, ?_⟩
    · exact get_asset_single _ _ _ _ _ rfl
    · rw [get_attr_single A2 _ _ _ _ _ rfl rfl]
      rfl
  · intro s a A ta t0 t ed hget hta hattr ht0 hstale hup
    rw [process_event_mkEvent S now t pt false n h ed s hne,
        ingest_observation_stale S now t ta t0 false s host n
          (resolve_detail ["attribute_detail"] (mkEvent h ed t)) a A hget hta hattr ht0 hstale]
    rw [if_neg hup]

theorem C4_newest_wins_commutes_witness :
    (strip_domain "web01" ≠ "")
    ∧ ((1 : Int) < 2)
    ∧ (asset_data_ingest (mkCtx {} 0 (fun _ => none) false)
         [mkEvent "web01" "d1" 1, mkEvent "web01" "d2" 2] (some "scanner-a") emptyStore
       = asset_data_ingest (mkCtx {} 0 (fun _ => none) false)
         [mkEvent "web01" "d2" 2, mkEvent "web01" "d1" 1] (some "scanner-a") emptyStore) :=
  ⟨by decide, by decide,
   (C4_newest_wins_commutes {} 0 1 2 (fun _ => none) "scanner-a" "web01" "d1" "d2"
     (by decide) (by decide)).1⟩

/-- **C5.** Per-event independence: an event that fails any resolution step
(no attribute name available, no resolvable hostname, missing or unparseable
observed time) is skipped with the store returned exactly unchanged — in
particular it creates no asset record — and the loop goes on to process every
remaining event rather than aborting. -/
theorem C5_event_independence (ctx : ParseCtx) (cached : Option String) (e : Event) (s : Store)
    (hfail : (resolve_attribute_name cached e).2 = none
           ∨ resolve_hostname ctx.hostname_keys e = none
           ∨ resolve_observed_time ctx.parse_time ctx.last_observed_keys e = none) :
    (process_event ctx cached e s).2 = some s
    ∧ (∀ s', (process_event ctx cached e s).2 = some s' → s'.assets = s.assets)
    ∧ (∀ rest, asset_data_ingest ctx (e :: rest) cached s
         = asset_data_ingest ctx rest (process_event ctx cached e s).1 s) := by
  have hcore : process_event ctx cached e s = ((resolve_attribute_name cached e).1, some s) := by
    unfold process_event
    rcases hr : resolve_attribute_name cached e with ⟨c', r⟩
    cases r with
    | none => rfl
    | some name =>
      rcases hfail with hf | hf | hf
      · rw [hr] at hf
        exact absurd hf (by simp)
      · rw [hf]
      · rcases hh : resolve_hostname ctx.hostname_keys e with _ | host
        · rfl
        · dsimp only
          rw [hf]
  refine ⟨by rw [hcore], ?_, ?_⟩
  · intro s' hs'
    rw [hcore] at hs'
    simp only [Option.some_inj] at hs'
    rw [← hs']
  · intro rest
    simp only [asset_data_ingest]
    rw [hcore]

theorem C5_event_independence_witness :
    (resolve_hostname (mkCtx {} 0 (fun _ => none) false).hostname_keys
       ⟨[("attribute_name", EValue.str "a"), ("last_observed", EValue.time 1)]⟩ = none)
    ∧ ((process_event (mkCtx {} 0 (fun _ => none) false) none
         ⟨[("attribute_name", EValue.str "a"), ("last_observed", EValue.time 1)]⟩ emptyStore).2
        = some emptyStore)
    ∧ (∀ rest, asset_data_ingest (mkCtx {} 0 (fun _ => none) false)
         (⟨[("attribute_name", EValue.str "a"), ("last_observed", EValue.time 1)]⟩ :: rest)
         none emptyStore
       = asset_data_ingest (mkCtx {} 0 (fun _ => none) false) rest
           (process_event (mkCtx {} 0 (fun _ => none) false) none
             ⟨[("attribute_name", EValue.str "a"), ("last_observed", EValue.time 1)]⟩ emptyStore).1
           emptyStore) :=
  ⟨by decide,
   (C5_event_independence (mkCtx {} 0 (fun _ => none) false) none
     ⟨[("attribute_name", EValue.str "a"), ("last_observed", EValue.time 1)]⟩ emptyStore
     (Or.inr (Or.inl (by decide)))).1,
   (C5_event_independence (mkCtx {} 0 (fun _ => none) false) none
     ⟨[("attribute_name", EValue.str "a"), ("last_observed", EValue.time 1)]⟩ emptyStore
     (Or.inr (Or.inl (by decide)))).2.2⟩

/-- **C6.** The failing batch for the per-event attribute-name claim: two
events for the same host carrying their own `attribute_name` fields `"a"` and
`"b"`, ingested without a batch-level source name.  Because the source reads
the first event's name into the loop-carried `attribute_name` variable, the
second event's observation (time 2) is stored under `"a"` and no attribute
named `"b"` is ever created — against the claim (and spec §4.3 step 1), under
which the second event would create attribute `"b"`. -/
theorem C6_attribute_name_caching :
    (asset_data_ingest (mkCtx {} 0 (fun _ => none) false)
       [⟨[("attribute_name", EValue.str "a"), ("hostname", EValue.str "h1"),
          ("last_observed", EValue.time 1)]⟩,
        ⟨[("attribute_name", EValue.str "b"), ("hostname", EValue.str "h1"),
          ("last_observed", EValue.time 2)]⟩]
       none emptyStore).map
      (fun st => (st.attributes.map (fun A => (A.name, A.last_observed)),
                  st.assets.map (fun a => a.hostname)))
      = some ([("a", some 2)], ["H1"]) := by decide

/-- **C9.** When the merge engine updates an existing attribute with a
strictly newer observation, only that attribute row changes, and only its
last-observed time and detail fields: `update_attribute` is invoked without a
status argument, so the stored status survives — an attribute previously
marked `missing` is still `missing` after the update, until a staleness
evaluation pass (run when the attribute is inside its absence window) flips it
back to `good`. -/
theorem C9_update_preserves_status (S : Settings) (now t ta t0 : Int)
    (pt : String → Option Int) (s : Store) (h n d : String) (a : Asset) (A : Attribute)
    (hne : strip_domain h ≠ "")
    (hget : get_asset_by_name s (strip_domain h) = some a)
    (hta : a.last_observed = some ta) (htgta : t > ta)
    (hattr : get_attribute_by_name s a.id n = some A)
    (ht0 : A.last_observed = some t0) (htgt : t > t0) :
    (∃ s', process_event (mkCtx S now pt false) (some n) (mkEvent h d t) s = (some n, some s')
       ∧ s'.attributes
           = s.attributes.map (fun x =>
               if x.id = A.id
               then update_attribute A (some t)
                      (some (resolve_detail ["attribute_detail"] (mkEvent h d t))) none
               else x))
    ∧ (∀ (t' : Int) (d' : String),
         (update_attribute A (some t') (some d') none).status = A.status
         ∧ (update_attribute A (some t') (some d') none).name = A.name
         ∧ (update_attribute A (some t') (some d') none).asset_id = A.asset_id
         ∧ (update_attribute A (some t') (some d') none).id = A.id
         ∧ (update_attribute A (some t') (some d') none).last_observed = some t'
         ∧ (update_attribute A (some t') (some d') none).detail = d')
    ∧ (A.status = AttributeStatus.missing →
         ∀ (now' maxAbs : Int), ¬(now' - t > days maxAbs) →
           (update_attribute A (some t) (some d) none).status = AttributeStatus.missing
           ∧ (evaluate_attribute_age now' maxAbs
                (update_attribute A (some t) (some d) none)).status = AttributeStatus.good) := by
  refine ⟨?_, ?_, ?_⟩
  · rw [process_event_mkEvent S now t pt false n h d s hne,
        ingest_observation_update S now t ta t0 false s (strip_domain h) n
          (resolve_detail ["attribute_detail"] (mkEvent h d t)) a A hget hta htgta hattr ht0 htgt]
    exact ⟨_, rfl, rfl⟩
  · intro t' d'
    exact ⟨rfl, rfl, rfl, rfl, rfl, rfl⟩
  · intro hm now' maxAbs hns
    constructor
    · exact hm
    · rw [evaluate_attribute_age_eq]
      dsimp only [update_attribute, time_since_observation]
      rw [if_neg hns]

theorem C9_update_preserves_status_witness :
    ((update_attribute ⟨0, 0, "a", some 1, "old", AttributeStatus.missing⟩
        (some 2) (some "new") none).status = AttributeStatus.missing)
    ∧ ((evaluate_attribute_age 0 4 (update_attribute
          ⟨0, 0, "a", some 1, "old", AttributeStatus.missing⟩
          (some 2) (some "new") none)).status = AttributeStatus.good) :=
  (C9_update_preserves_status {} 0 2 1 1 (fun _ => none)
    ⟨[⟨0, "H1", Status.unknown, some 1⟩], [⟨0, 0, "a", some 1, "old", AttributeStatus.missing⟩], 1, 1⟩
    "h1" "a" "new" ⟨0, "H1", Status.unknown, some 1⟩
    ⟨0, 0, "a", some 1, "old", AttributeStatus.missing⟩
    (by decide) (by decide) rfl (by decide) (by decide) rfl (by decide)).2.2
    rfl 0 4 (by decide)

end AssetTracking
